import Mathlib

/-!
Shallow embedding of the OAuth 2.1 subsystem of the intervals-mcp-server
repository (`src/intervals_mcp_server/oauth.py` and `security.py`), together
with theorems settling the specification claims about it.

Machine integers are modelled as `Nat` with explicit `% 2^32` reductions
(SHA-256 works on 32-bit words); Python's in-memory dicts are association
lists; Python exceptions (`HTTPException`) are `Except` errors; wall-clock
time is an explicit `Int` of Unix seconds passed to each operation; the
random values produced by `secrets.token_urlsafe` are explicit parameters.
-/

/-! ## Python string primitives -/

/-- Python's whitespace predicate for `str.strip()` / `str.split()`
restricted to the ASCII range: space, tab, newline, vertical tab,
form feed, carriage return. -/
def isPySpace (c : Char) : Bool :=
  c.toNat == 32 || (decide (9 ≤ c.toNat) && decide (c.toNat ≤ 13))

/-- Python `str.strip()` with no arguments: drop whitespace from both ends. -/
def pyStrip (s : String) : String :=
  String.mk (((s.data.dropWhile isPySpace).reverse.dropWhile isPySpace).reverse)

/-- Splitter for `pySplitWs`: skip whitespace, emit maximal runs of
non-whitespace. The fuel (the list's length suffices) only bounds the
recursion; each step consumes at least one character. -/
def splitWsAux : Nat → List Char → List (List Char)
  | 0, _ => []
  | _, [] => []
  | fuel + 1, c :: cs =>
    if isPySpace c then splitWsAux fuel cs
    else (c :: cs.takeWhile (fun d => !isPySpace d)) ::
      splitWsAux fuel (cs.dropWhile (fun d => !isPySpace d))

/-- Python `str.split()` with no arguments: split on runs of whitespace,
discarding empty pieces. -/
def pySplitWs (s : String) : List String :=
  (splitWsAux s.data.length s.data).map String.mk

/-- Python `str.startswith(pre)`. -/
def pyStartsWith (s pre : String) : Bool := pre.data.isPrefixOf s.data

/-- Drop the first `n` characters of a string (Python slicing `s[n:]` for
ASCII strings). -/
def pyDrop (s : String) (n : Nat) : String := String.mk (s.data.drop n)

/-- Python truthiness of an optional string: `None` and `""` are falsy. -/
def pyTruthy : Option String → Bool
  | none => false
  | some s => s ≠ ""

/-- Python `str(x)` applied to an optional string: `str(None) = "None"`.
This is what `urllib.parse.urlencode` does to a `None` query value. -/
def pyStrOfOptStr : Option String → String
  | none => "None"
  | some s => s

/-! ## SHA-256 (FIPS 180-4), on lists of byte values -/

/-- Modulus for 32-bit words. -/
def m32 : Nat := 4294967296

/-- Right rotation of a 32-bit word by `n` bits. -/
def rotr32 (n x : Nat) : Nat := ((x >>> n) ||| (x <<< (32 - n))) % m32

/-- Big sigma-0 of the SHA-256 compression function. -/
def bSig0 (x : Nat) : Nat := rotr32 2 x ^^^ rotr32 13 x ^^^ rotr32 22 x

/-- Big sigma-1 of the SHA-256 compression function. -/
def bSig1 (x : Nat) : Nat := rotr32 6 x ^^^ rotr32 11 x ^^^ rotr32 25 x

/-- Small sigma-0 of the SHA-256 message schedule. -/
def sSig0 (x : Nat) : Nat := rotr32 7 x ^^^ rotr32 18 x ^^^ (x >>> 3)

/-- Small sigma-1 of the SHA-256 message schedule. -/
def sSig1 (x : Nat) : Nat := rotr32 17 x ^^^ rotr32 19 x ^^^ (x >>> 10)

/-- The SHA-256 round constants. -/
def sha256K : List Nat :=
  [1116352408, 1899447441, 3049323471, 3921009573, 961987163,
   1508970993, 2453635748, 2870763221, 3624381080, 310598401,
   607225278, 1426881987, 1925078388, 2162078206, 2614888103,
   3248222580, 3835390401, 4022224774, 264347078, 604807628,
   770255983, 1249150122, 1555081692, 1996064986, 2554220882,
   2821834349, 2952996808, 3210313671, 3336571891, 3584528711,
   113926993, 338241895, 666307205, 773529912, 1294757372,
   1396182291, 1695183700, 1986661051, 2177026350, 2456956037,
   2730485921, 2820302411, 3259730800, 3345764771, 3516065817,
   3600352804, 4094571909, 275423344, 430227734, 506948616,
   659060556, 883997877, 958139571, 1322822218, 1537002063,
   1747873779, 1955562222, 2024104815, 2227730452, 2361852424,
   2428436474, 2756734187, 3204031479, 3329325298]

/-- The eight working registers of the SHA-256 state. -/
structure H8 where
  a : Nat
  b : Nat
  c : Nat
  d : Nat
  e : Nat
  f : Nat
  g : Nat
  h : Nat
deriving Repr, DecidableEq

/-- The SHA-256 initial hash value. -/
def sha256H0 : H8 :=
  ⟨1779033703, 3144134277, 1013904242, 2773480762,
   1359893119, 2600822924, 528734635, 1541459225⟩

/-- One round of the SHA-256 compression function, consuming a pair of
round constant and schedule word. -/
def shaStep (s : H8) (kw : Nat × Nat) : H8 :=
  let s1 := bSig1 s.e
  let ch := (s.e &&& s.f) ^^^ ((s.e ^^^ (m32 - 1)) &&& s.g)
  let t1 := (s.h + s1 + ch + kw.1 + kw.2) % m32
  let s0 := bSig0 s.a
  let mj := (s.a &&& s.b) ^^^ (s.a &&& s.c) ^^^ (s.b &&& s.c)
  let t2 := (s0 + mj) % m32
  ⟨(t1 + t2) % m32, s.a, s.b, s.c, (s.d + t1) % m32, s.e, s.f, s.g⟩

/-- Big-endian bytes of a value, `n` bytes wide. -/
def toBytesBE (n v : Nat) : List Nat :=
  (List.range n).map (fun i => (v >>> (8 * (n - 1 - i))) % 256)

/-- Group a byte list into big-endian 32-bit words. -/
def wordsOfBytes : List Nat → List Nat
  | b0 :: b1 :: b2 :: b3 :: rest =>
      ((b0 <<< 24) + (b1 <<< 16) + (b2 <<< 8) + b3) :: wordsOfBytes rest
  | _ => []

/-- Extend the sixteen block words by `fuel` schedule words (48 for SHA-256). -/
def extendW : Nat → List Nat → List Nat
  | 0, w => w
  | fuel + 1, w =>
      let t := w.length
      extendW fuel
        (w ++ [(w.getD (t - 16) 0 + sSig0 (w.getD (t - 15) 0) +
                w.getD (t - 7) 0 + sSig1 (w.getD (t - 2) 0)) % m32])

/-- Add two SHA-256 states componentwise modulo `2^32`. -/
def addH (x y : H8) : H8 :=
  ⟨(x.a + y.a) % m32, (x.b + y.b) % m32, (x.c + y.c) % m32, (x.d + y.d) % m32,
   (x.e + y.e) % m32, (x.f + y.f) % m32, (x.g + y.g) % m32, (x.h + y.h) % m32⟩

/-- Compress one 64-byte block into the running SHA-256 state. -/
def compressBlock (st : H8) (block : List Nat) : H8 :=
  let w := extendW 48 (wordsOfBytes block)
  addH st ((sha256K.zip w).foldl shaStep st)

/-- Split a byte list into 64-byte chunks, structurally recursive on a
fuel bound so the kernel can evaluate it. -/
def chunks64Go : Nat → List Nat → List (List Nat)
  | _, [] => []
  | 0, _ :: _ => []
  | fuel + 1, l => l.take 64 :: chunks64Go fuel (l.drop 64)

/-- Split a byte list into 64-byte chunks (the list's length is always
enough fuel, since each step consumes at least one element). -/
def chunks64 (l : List Nat) : List (List Nat) := chunks64Go l.length l

/-- SHA-256 padding: append `0x80`, zeros to 56 mod 64, then the bit length
as eight big-endian bytes. -/
def padMsg (msg : List Nat) : List Nat :=
  msg ++ 128 :: List.replicate ((119 - (msg.length % 64)) % 64) 0 ++
    toBytesBE 8 ((8 * msg.length) % 18446744073709551616)

/-- SHA-256 digest of a byte list, as a list of 32 byte values. -/
def sha256 (msg : List Nat) : List Nat :=
  let fin := (chunks64 (padMsg msg)).foldl compressBlock sha256H0
  ([fin.a, fin.b, fin.c, fin.d, fin.e, fin.f, fin.g, fin.h].map (toBytesBE 4)).flatten

/-! ## Base64url encoding and PKCE verification -/

/-- The URL-safe base64 alphabet used by `base64.urlsafe_b64encode`. -/
def b64UrlAlphabet : List Char :=
  "ABCDEFGHIJKLMNOPQRSTUVWXYZabcdefghijklmnopqrstuvwxyz0123456789-_".data

/-- Character of the URL-safe base64 alphabet at a 6-bit index. -/
def b64Char (n : Nat) : Char := b64UrlAlphabet.getD n 'A'

/-- Base64url-encode a byte list, with `=` padding. -/
def b64urlEncodeList : List Nat → List Char
  | b0 :: b1 :: b2 :: rest =>
      b64Char (b0 >>> 2) :: b64Char (((b0 % 4) <<< 4) ||| (b1 >>> 4)) ::
      b64Char (((b1 % 16) <<< 2) ||| (b2 >>> 6)) :: b64Char (b2 % 64) ::
      b64urlEncodeList rest
  | [b0, b1] =>
      [b64Char (b0 >>> 2), b64Char (((b0 % 4) <<< 4) ||| (b1 >>> 4)),
       b64Char ((b1 % 16) <<< 2), '=']
  | [b0] =>
      [b64Char (b0 >>> 2), b64Char ((b0 % 4) <<< 4), '=', '=']
  | [] => []

/-- Python `base64.urlsafe_b64encode(...).decode('ascii')`. -/
def urlsafe_b64encode (bs : List Nat) : String := String.mk (b64urlEncodeList bs)

/-- Python `str.rstrip('=')`: drop trailing `=` characters. -/
def rstripEq (s : String) : String :=
  String.mk ((s.data.reverse.dropWhile (fun c => c == '=')).reverse)

/-- Python `str.encode('ascii')` viewed as the list of code points (the
source only ever feeds ASCII PKCE verifiers, for which this is exact). -/
def asciiBytes (s : String) : List Nat := s.data.map Char.toNat

/-- PKCE challenge derived from a verifier under `S256`: base64url of the
SHA-256 digest, with `=` padding stripped. -/
def s256Challenge (code_verifier : String) : String :=
  rstripEq (urlsafe_b64encode (sha256 (asciiBytes code_verifier)))

/-- Embedding of `verify_pkce` from `oauth.py`. -/
def verify_pkce (code_verifier code_challenge : String)
    (code_challenge_method : String) : Bool :=
  if code_challenge_method = "S256" then
    s256Challenge code_verifier == code_challenge
  else if code_challenge_method = "plain" then
    code_verifier == code_challenge
  else
    false

/-! ## OAuth data model

Python dicts (`OAUTH_CLIENTS`, `AUTHORIZATION_CODES`, `OAUTH_TOKENS`) are
association lists looked up with `List.lookup`; insertion prepends, so the
first match is the current binding. -/

/-- A FastAPI `HTTPException`: status code and detail message. -/
structure HTTPException where
  status_code : Nat
  detail : String
deriving Repr, DecidableEq

/-- A stored OAuth client record, as built by `register_oauth_client`. -/
structure ClientInfo where
  client_id : String
  client_secret : Option String
  client_name : String
  redirect_uris : List String
  grant_types : List String
  response_types : List String
  token_endpoint_auth_method : String
  scope : String
  is_public_client : Bool
  created_at : Int
deriving Repr, DecidableEq

/-- The record stored in `AUTHORIZATION_CODES` for an issued code. -/
structure AuthCodeData where
  client_id : String
  redirect_uri : String
  scope : String
  code_challenge : Option String
  code_challenge_method : String
  expires_at : Int
  used : Bool
deriving Repr, DecidableEq

/-- A decoded JWT payload. Minted tokens populate every field; inbound
tokens may omit any claim, hence the options. -/
structure JwtPayload where
  sub : Option String
  client_id : Option String
  scope : Option String
  aud : Option String
  iss : Option String
  iat : Option Int
  exp : Option Int
deriving Repr, DecidableEq

/-- The record stored in `OAUTH_TOKENS` for an issued access token. -/
structure TokenInfo where
  client_id : String
  scope : String
  expires_at : Int
  refresh_token : String
deriving Repr, DecidableEq

/-- The three in-memory OAuth stores. Access tokens are keyed by their
JWT payload (the embedding abstracts the serialized/signed JWT string,
which is a bijective image of the payload under a fixed key). -/
structure OAuthState where
  clients : List (String × ClientInfo)
  codes : List (String × AuthCodeData)
  tokens : List (JwtPayload × TokenInfo)
deriving Repr, DecidableEq

/-- Body of a successful `POST /oauth/token` response. -/
structure TokenResponse where
  access_token : JwtPayload
  token_type : String
  expires_in : Nat
  refresh_token : String
  scope : String
deriving Repr, DecidableEq

/-- Authentication context returned by `verify_oauth_or_api_key`. -/
structure AuthContext where
  type : String
  user_id : Option String
  scopes : List String
  client_id : Option String
deriving Repr, DecidableEq

/-- Environment-derived configuration used by the token functions. -/
structure Config where
  jwt_secret_key : String
  oauth_audience : String
  base_url : String
deriving Repr, DecidableEq

/-- Decidable equality for `Except`, needed to evaluate the embedded
operations at concrete inputs. -/
instance instDecEqExcept {e a : Type} [DecidableEq e] [DecidableEq a] :
    DecidableEq (Except e a) := fun x y =>
  match x, y with
  | .error u, .error v =>
    match decEq u v with
    | isTrue h => isTrue (h ▸ rfl)
    | isFalse h => isFalse fun hh => h (by injection hh)
  | .error _, .ok _ => isFalse fun hh => Except.noConfusion hh
  | .ok _, .error _ => isFalse fun hh => Except.noConfusion hh
  | .ok u, .ok v =>
    match decEq u v with
    | isTrue h => isTrue (h ▸ rfl)
    | isFalse h => isFalse fun hh => h (by injection hh)

/-! ## security.py: verify_api_key -/

/-- Embedding of `verify_api_key` from `security.py`. `mcp_api_key_env` is
the raw `MCP_API_KEY` environment value; an empty configured key skips
validation entirely (the zero-config development mode). -/
def verify_api_key (mcp_api_key_env : String) (x_api_key : Option String) :
    Except HTTPException Unit :=
  let expected_key := pyStrip mcp_api_key_env
  if expected_key = "" then
    .ok ()
  else if pyTruthy x_api_key = false ∨ x_api_key ≠ some expected_key then
    .error ⟨401, "Invalid or missing API key"⟩
  else
    .ok ()

/-! ## oauth.py: token verification

`jwt.decode` (signature check under the configured secret plus JSON
parsing) is abstracted as a `decode` function from token strings to
optional payloads; `none` models `InvalidTokenError`. PyJWT would raise
`ExpiredSignatureError` for an expired `exp` during decode, which the
source maps to the same `(401, "Token expired")` that its own explicit
expiry check produces, so letting expired payloads decode and be caught
by the explicit check is observably equivalent. -/

/-- Embedding of `verify_jwt_token_sync` from `oauth.py`. -/
def verify_jwt_token_sync (decode : String → Option JwtPayload)
    (jwt_secret_key : String) (now : Int) (authorization : String) :
    Except HTTPException JwtPayload :=
  if ¬ pyStartsWith authorization "Bearer " then
    .error ⟨401, "Invalid Authorization header format"⟩
  else if jwt_secret_key = "" then
    .error ⟨500, "Server configuration error: JWT secret not configured"⟩
  else
    match decode (pyDrop authorization 7) with
    | none => .error ⟨401, "Invalid token"⟩
    | some payload =>
      if payload.exp.any (fun e => decide (now > e)) then
        .error ⟨401, "Token expired"⟩
      else
        let token_scopes := pySplitWs (payload.scope.getD "")
        if ["intervals:read"].any (fun s => token_scopes.contains s) then
          .ok payload
        else
          .error ⟨403, "Insufficient permissions"⟩

/-- Embedding of the async `verify_jwt_token` from `oauth.py`; identical to
the sync version except for the missing-header check (Python truthiness:
`None` and `""` both fail it). -/
def verify_jwt_token (decode : String → Option JwtPayload)
    (jwt_secret_key : String) (now : Int) (authorization : Option String) :
    Except HTTPException JwtPayload :=
  if pyTruthy authorization = false then
    .error ⟨401, "Missing Authorization header"⟩
  else if ¬ pyStartsWith (authorization.getD "") "Bearer " then
    .error ⟨401, "Invalid Authorization header format"⟩
  else if jwt_secret_key = "" then
    .error ⟨500, "Server configuration error: JWT secret not configured"⟩
  else
    match decode (pyDrop (authorization.getD "") 7) with
    | none => .error ⟨401, "Invalid token"⟩
    | some payload =>
      if payload.exp.any (fun e => decide (now > e)) then
        .error ⟨401, "Token expired"⟩
      else
        let token_scopes := pySplitWs (payload.scope.getD "")
        if ["intervals:read"].any (fun s => token_scopes.contains s) then
          .ok payload
        else
          .error ⟨403, "Insufficient permissions"⟩

/-- The authentication context produced on the API-key fallback path of
`verify_oauth_or_api_key`. -/
def apiKeyContext : AuthContext :=
  { type := "api_key"
    user_id := some "api_key_user"
    scopes := ["intervals:read", "intervals:write", "intervals:admin"]
    client_id := some "api_key_client" }

/-- Embedding of `verify_oauth_or_api_key` from `oauth.py`: try the bearer
token first, fall back to the API key, and fail with a combined 401 when
both are rejected. -/
def verify_oauth_or_api_key (decode : String → Option JwtPayload)
    (jwt_secret_key mcp_api_key_env : String) (now : Int)
    (authorization x_api_key : Option String) :
    Except HTTPException AuthContext :=
  let apiFallback : Except HTTPException AuthContext :=
    match verify_api_key mcp_api_key_env x_api_key with
    | .ok _ => .ok apiKeyContext
    | .error _ =>
      .error ⟨401,
        "Authentication required: provide either valid Bearer token or X-API-Key header"⟩
  match authorization with
  | some a =>
    if pyStartsWith a "Bearer " then
      match verify_jwt_token_sync decode jwt_secret_key now a with
      | .ok payload =>
        .ok { type := "oauth"
              user_id := payload.sub
              scopes := pySplitWs (payload.scope.getD "")
              client_id := payload.client_id }
      | .error _ => apiFallback
    else apiFallback
  | none => apiFallback

/-! ## oauth.py: token issuance -/

/-- Embedding of `create_access_token` from `oauth.py`: builds the JWT
payload (the `jwt.encode` signing step is serialization under the
configured key and is abstracted away). A missing `JWT_SECRET_KEY`
raises `ValueError` in the source, modelled as the error case. -/
def create_access_token (cfg : Config) (client_id scope : String) (now : Int) :
    Except String JwtPayload :=
  if cfg.jwt_secret_key = "" then
    .error "JWT_SECRET_KEY not configured"
  else
    .ok { sub := some client_id
          client_id := some client_id
          scope := some scope
          aud := some (if cfg.oauth_audience ≠ "" then cfg.oauth_audience else "intervals-mcp-server")
          iss := some (cfg.base_url ++ "/")
          iat := some now
          exp := some (now + 86400) }

/-- Mark an authorization code as used, in place, mirroring the dict-value
mutation `auth_data["used"] = True`. -/
def markUsed (c : String) (codes : List (String × AuthCodeData)) :
    List (String × AuthCodeData) :=
  codes.map (fun p => if p.1 = c then (p.1, { p.2 with used := true }) else p)

/-- Embedding of `handle_token_request` from `oauth.py`. `fresh_refresh`
stands for the `secrets.token_urlsafe(32)` refresh-token value. The
presented `client_id` is checked equal to the code's stored client id
before use, so the stored id is used for the minted token. An uncaught
`ValueError` from `create_access_token` surfaces as a server error (500). -/
def handle_token_request (cfg : Config) (st : OAuthState) (now : Int)
    (fresh_refresh : String) (grant_type : String)
    (code redirect_uri client_id client_secret code_verifier : Option String) :
    Except HTTPException (TokenResponse × OAuthState) :=
  if grant_type ≠ "authorization_code" then
    .error ⟨400, "Unsupported grant_type"⟩
  else if pyTruthy code = false then
    .error ⟨400, "Missing authorization code"⟩
  else
    match st.codes.lookup (code.getD "") with
    | none => .error ⟨400, "Invalid authorization code"⟩
    | some auth_data =>
      if auth_data.used = true ∨ now > auth_data.expires_at then
        .error ⟨400, "Authorization code expired or already used"⟩
      else if client_id ≠ some auth_data.client_id then
        .error ⟨400, "Client ID mismatch"⟩
      else
        match st.clients.lookup auth_data.client_id with
        | none => .error ⟨400, "Invalid client"⟩
        | some client =>
          if redirect_uri ≠ some auth_data.redirect_uri then
            .error ⟨400, "Redirect URI mismatch"⟩
          else if client.is_public_client = true ∧
                  (pyTruthy code_verifier = false ∨ pyTruthy auth_data.code_challenge = false) then
            .error ⟨400, "PKCE verification required for public clients"⟩
          else if client.is_public_client = true ∧
                  verify_pkce (code_verifier.getD "") (auth_data.code_challenge.getD "")
                    auth_data.code_challenge_method = false then
            .error ⟨400, "PKCE verification failed"⟩
          else if client.is_public_client = false ∧ client_secret ≠ client.client_secret then
            .error ⟨400, "Invalid client secret"⟩
          else
            match create_access_token cfg auth_data.client_id
                (if auth_data.scope = "" then "intervals:read intervals:write"
                 else auth_data.scope) now with
            | .error _ => .error ⟨500, "JWT_SECRET_KEY not configured"⟩
            | .ok payload =>
              .ok ({ access_token := payload
                     token_type := "Bearer"
                     expires_in := 3600
                     refresh_token := fresh_refresh
                     scope := if auth_data.scope = "" then "intervals:read intervals:write"
                              else auth_data.scope },
                   { st with
                     codes := markUsed (code.getD "") st.codes
                     tokens := (payload,
                       { client_id := auth_data.client_id
                         scope := if auth_data.scope = "" then "intervals:read intervals:write"
                                  else auth_data.scope
                         expires_at := now + 3600
                         refresh_token := fresh_refresh }) :: st.tokens })

/-! ## urllib.parse.urlencode -/

/-- UTF-8 bytes of a character. -/
def utf8Bytes (c : Char) : List Nat :=
  let n := c.toNat
  if n < 128 then [n]
  else if n < 2048 then [192 + n / 64, 128 + n % 64]
  else if n < 65536 then [224 + n / 4096, 128 + (n / 64) % 64, 128 + n % 64]
  else [240 + n / 262144, 128 + (n / 4096) % 64, 128 + (n / 64) % 64, 128 + n % 64]

/-- Uppercase hexadecimal digit. -/
def hexDigitUpper (n : Nat) : Char := "0123456789ABCDEF".data.getD n '0'

/-- The characters `urllib.parse.quote` never encodes: ASCII letters,
digits, and `_.-~`. -/
def isUrlAlwaysSafe (c : Char) : Bool :=
  (decide ('A' ≤ c) && decide (c ≤ 'Z')) || (decide ('a' ≤ c) && decide (c ≤ 'z')) ||
  (decide ('0' ≤ c) && decide (c ≤ '9')) || c == '_' || c == '.' || c == '-' || c == '~'

/-- Percent-encoding of one character under `urllib.parse.quote_plus` with
an empty safe set: safe characters pass through, space becomes `+`, and
everything else is the `%XX` encoding of its UTF-8 bytes. -/
def quotePlusChar (c : Char) : List Char :=
  if isUrlAlwaysSafe c then [c]
  else if c = ' ' then ['+']
  else (utf8Bytes c).foldr
    (fun b acc => '%' :: hexDigitUpper (b / 16) :: hexDigitUpper (b % 16) :: acc) []

/-- Python `urllib.parse.quote_plus` with an empty safe set. -/
def quote_plus (s : String) : String :=
  String.mk (s.data.foldr (fun c acc => quotePlusChar c ++ acc) [])

/-- Python `urllib.parse.urlencode` on a list of already-stringified
key/value pairs. -/
def urlencode (pairs : List (String × String)) : String :=
  String.intercalate "&" (pairs.map (fun p => quote_plus p.1 ++ "=" ++ quote_plus p.2))

/-! ## oauth.py: authorization endpoint -/

/-- Query parameters of `GET /oauth/authorize` as the source reads them:
`scope` and `code_challenge_method` carry their `params.get` defaults. -/
structure AuthRequestParams where
  client_id : Option String
  redirect_uri : Option String
  response_type : Option String
  scope : String
  state : Option String
  code_challenge : Option String
  code_challenge_method : String
deriving Repr, DecidableEq

/-- A `RedirectResponse`: target URL and HTTP status. -/
structure RedirectResp where
  url : String
  status_code : Nat
deriving Repr, DecidableEq

/-- Embedding of `handle_authorization_request` from `oauth.py`.
`fresh_code` stands for the `secrets.token_urlsafe(32)` authorization
code. Missing `client_id`/`redirect_uri` fail the respective membership
tests exactly as Python's `None not in dict` / `None not in list` do. -/
def handle_authorization_request (st : OAuthState) (now : Int) (fresh_code : String)
    (params : AuthRequestParams) : Except HTTPException (RedirectResp × OAuthState) :=
  match params.client_id with
  | none => .error ⟨400, "Invalid client_id"⟩
  | some cid =>
    match st.clients.lookup cid with
    | none => .error ⟨400, "Invalid client_id"⟩
    | some client =>
      match params.redirect_uri with
      | none => .error ⟨400, "Invalid redirect_uri"⟩
      | some ruri =>
        if ruri ∉ client.redirect_uris then
          .error ⟨400, "Invalid redirect_uri"⟩
        else if params.response_type ≠ some "code" then
          .error ⟨400, "Unsupported response_type"⟩
        else if client.is_public_client = true ∧ pyTruthy params.code_challenge = false then
          .error ⟨400, "PKCE required for public clients"⟩
        else
          .ok ({ url := ruri ++ "?" ++
                   urlencode [("code", fresh_code), ("state", pyStrOfOptStr params.state)]
                 status_code := 302 },
               { st with codes := (fresh_code,
                   { client_id := cid
                     redirect_uri := ruri
                     scope := params.scope
                     code_challenge := params.code_challenge
                     code_challenge_method := params.code_challenge_method
                     expires_at := now + 600
                     used := false }) :: st.codes })

/-! ## oauth.py: dynamic client registration -/

/-- The JSON body of a registration request, as the source consumes it.
`has_client_secret` models `"client_secret" in client_data`. -/
structure RegRequest where
  token_endpoint_auth_method : Option String
  has_client_secret : Bool
  client_name : Option String
  redirect_uris : List String
  grant_types : Option (List String)
  response_types : Option (List String)
  scope : Option String
deriving Repr, DecidableEq

/-- Body of a successful registration response. -/
structure RegResponse where
  client_id : String
  client_name : String
  redirect_uris : List String
  grant_types : List String
  response_types : List String
  token_endpoint_auth_method : String
  scope : String
  client_secret : Option String
deriving Repr, DecidableEq

/-- The redirect-URI scheme rule of `register_oauth_client`. -/
def validRedirectUri (uri : String) : Bool :=
  pyStartsWith uri "https://" || pyStartsWith uri "http://localhost"

/-- Starlette renders an `HTTPException` via `str(e)` as
`"{status_code}: {detail}"` (braces shown as placeholders). -/
def strOfHTTPException (e : HTTPException) : String :=
  toString e.status_code ++ ": " ++ e.detail

/-- Embedding of `register_oauth_client` from `oauth.py`. `fresh_client_id`
and `fresh_secret` stand for the two `secrets.token_urlsafe` draws. The
source wraps its whole body in `try/except Exception`, which also catches
the `HTTPException` raised for a bad redirect URI and re-raises it as a
400 with a wrapped detail string; the outer match models that. -/
def register_oauth_client (st : OAuthState) (now : Int)
    (fresh_client_id fresh_secret : String) (client_data : RegRequest) :
    Except HTTPException (RegResponse × OAuthState) :=
  let inner : Except HTTPException (RegResponse × OAuthState) :=
    let client_id := "intervals_mcp_" ++ fresh_client_id
    let is_public_client :=
      client_data.token_endpoint_auth_method == some "none" || !client_data.has_client_secret
    let client_secret := if is_public_client then none else some fresh_secret
    match client_data.redirect_uris.find? (fun uri => !validRedirectUri uri) with
    | some _ => .error ⟨400, "Invalid redirect URI: must be HTTPS or localhost"⟩
    | none =>
      let client_info : ClientInfo :=
        { client_id := client_id
          client_secret := client_secret
          client_name := client_data.client_name.getD "MCP Client"
          redirect_uris := client_data.redirect_uris
          grant_types := client_data.grant_types.getD ["authorization_code"]
          response_types := client_data.response_types.getD ["code"]
          token_endpoint_auth_method := if is_public_client then "none" else "client_secret_post"
          scope := client_data.scope.getD "intervals:read intervals:write"
          is_public_client := is_public_client
          created_at := now }
      let response : RegResponse :=
        { client_id := client_id
          client_name := client_info.client_name
          redirect_uris := client_data.redirect_uris
          grant_types := client_info.grant_types
          response_types := client_info.response_types
          token_endpoint_auth_method := client_info.token_endpoint_auth_method
          scope := client_info.scope
          client_secret := if is_public_client then none else some fresh_secret }
      .ok (response, { st with clients := (client_id, client_info) :: st.clients })
  match inner with
  | .ok r => .ok r
  | .error e => .error ⟨400, "Client registration failed: " ++ strOfHTTPException e⟩

/-! ## Test fixtures

Concrete instances used by sanity checks, witnesses and counterexamples:
one confidential client, one pending authorization code bound to it. -/

/-- A registered confidential client. -/
def clientConf : ClientInfo :=
  { client_id := "cl1", client_secret := some "sek", client_name := "n",
    redirect_uris := ["https://ex.com/cb"], grant_types := ["authorization_code"],
    response_types := ["code"], token_endpoint_auth_method := "client_secret_post",
    scope := "intervals:read", is_public_client := false, created_at := 0 }

/-- A pending, unused authorization code record bound to `clientConf`,
with an empty bound scope. -/
def codeRec : AuthCodeData :=
  { client_id := "cl1", redirect_uri := "https://ex.com/cb", scope := "",
    code_challenge := none, code_challenge_method := "S256",
    expires_at := 1000, used := false }

/-- A configuration with a signing secret present. -/
def cfg1 : Config :=
  { jwt_secret_key := "s", oauth_audience := "", base_url := "http://localhost:8000" }

/-- Store state holding `clientConf` and the pending code `"codeA"`. -/
def st1 : OAuthState :=
  { clients := [("cl1", clientConf)], codes := [("codeA", codeRec)], tokens := [] }

/-- A payload whose only scope is `intervals:admin`. -/
def adminPayload : JwtPayload :=
  { sub := some "u", client_id := some "cl1", scope := some "intervals:admin",
    aud := none, iss := none, iat := none, exp := none }

/-- A decode map recognising the single token string `"tok"`. -/
def decAdmin : String → Option JwtPayload :=
  fun s => if s = "tok" then some adminPayload else none

/-! ## Sanity anchors for the cryptographic pipeline -/

/-- SHA-256 of the empty message matches the FIPS 180-4 test vector. -/
theorem sha256_empty_vector :
    sha256 [] =
      [227, 176, 196, 66, 152, 252, 28, 20, 154, 251, 244, 200, 153, 111, 185, 36,
       39, 174, 65, 228, 100, 155, 147, 76, 164, 149, 153, 27, 120, 82, 184, 85] := by decide

/-- The PKCE pipeline reproduces the RFC 7636 appendix B example. -/
theorem pkce_rfc7636_vector :
    s256Challenge "dBjftJeZ4CVP-mB92K27uhbUJU1p1r_wW1gFWFOEjXk" =
      "E9Melhoa2OwvFrEMTJguCHaoeK1t8URWbuGJSstw-cM" := by decide

/-! ## Helper lemmas -/

/-- A truthy optional string is `some` of its default-extracted value. -/
theorem pyTruthy_eq_some (o : Option String) (h : pyTruthy o = true) :
    o = some (o.getD "") := by
  cases o with
  | none => simp [pyTruthy] at h
  | some s => rfl

/-- Looking up a code after `markUsed` of that same code yields the old
record with the `used` flag set. -/
theorem lookup_markUsed (c : String) (codes : List (String × AuthCodeData))
    (ad : AuthCodeData) (h : codes.lookup c = some ad) :
    (markUsed c codes).lookup c = some { ad with used := true } := by
  induction codes with
  | nil => simp [List.lookup] at h
  | cons p rest ih =>
    obtain ⟨k, v⟩ := p
    by_cases hc : c = k
    · subst hc
      simp only [List.lookup, beq_self_eq_true, Option.some.injEq] at h
      subst h
      simp only [markUsed, List.map_cons, eq_self_iff_true, if_true]
      simp [List.lookup]
    · have hb : (c == k) = false := beq_eq_false_iff_ne.mpr hc
      simp only [List.lookup, hb] at h
      have hrest := ih h
      have hkc : ¬ (k = c) := fun hh => hc hh.symm
      simp only [markUsed, List.map_cons, eq_false hkc, if_false]
      simp only [List.lookup, hb]
      simpa [markUsed] using hrest

/-- Inversion for `create_access_token`: success forces a configured secret
and fully determines the payload. -/
theorem create_access_token_ok (cfg : Config) (client_id scope : String)
    (now : Int) (p : JwtPayload)
    (h : create_access_token cfg client_id scope now = .ok p) :
    cfg.jwt_secret_key ≠ "" ∧
    p = { sub := some client_id, client_id := some client_id, scope := some scope,
          aud := some (if cfg.oauth_audience ≠ "" then cfg.oauth_audience
                       else "intervals-mcp-server"),
          iss := some (cfg.base_url ++ "/"), iat := some now,
          exp := some (now + 86400) } := by
  unfold create_access_token at h
  split at h
  · exact absurd h (by simp)
  · cases h
    exact ⟨by assumption, rfl⟩

set_option maxHeartbeats 2000000 in
/-- Inversion for `handle_token_request`: a successful exchange pins down
the consumed code, its stored record, the minted payload, the response,
and the updated state. -/
theorem handle_token_request_ok
    (cfg : Config) (st : OAuthState) (now : Int) (fr g : String)
    (code ruri cid csec cver : Option String) (resp : TokenResponse) (st' : OAuthState)
    (h : handle_token_request cfg st now fr g code ruri cid csec cver = .ok (resp, st')) :
    ∃ c ad payload,
      code = some c ∧ pyTruthy (some c) = true ∧ st.codes.lookup c = some ad ∧
      create_access_token cfg ad.client_id
        (if ad.scope = "" then "intervals:read intervals:write" else ad.scope) now =
        .ok payload ∧
      resp = { access_token := payload, token_type := "Bearer", expires_in := 3600,
               refresh_token := fr,
               scope := if ad.scope = "" then "intervals:read intervals:write"
                        else ad.scope } ∧
      st' = { st with
              codes := markUsed c st.codes
              tokens := (payload,
                { client_id := ad.client_id
                  scope := if ad.scope = "" then "intervals:read intervals:write" else ad.scope
                  expires_at := now + 3600
                  refresh_token := fr }) :: st.tokens } := by
  unfold handle_token_request at h
  split at h
  · exact absurd h (by simp)
  rename_i hgrant
  split at h
  · exact absurd h (by simp)
  rename_i hpy
  split at h
  · exact absurd h (by simp)
  rename_i auth_data hlook
  split at h
  · exact absurd h (by simp)
  rename_i hused
  split at h
  · exact absurd h (by simp)
  rename_i hcid
  split at h
  · exact absurd h (by simp)
  rename_i client hclook
  split at h
  · exact absurd h (by simp)
  rename_i hruri
  split at h
  · exact absurd h (by simp)
  rename_i hpkce1
  split at h
  · exact absurd h (by simp)
  rename_i hpkce2
  split at h
  · exact absurd h (by simp)
  rename_i hsec
  split at h
  · exact absurd h (by simp)
  rename_i payload hcreate
  rw [Except.ok.injEq, Prod.mk.injEq] at h
  obtain ⟨hresp, hst⟩ := h
  have hpytrue : pyTruthy code = true := by
    cases hb : pyTruthy code with
    | false => exact absurd hb hpy
    | true => rfl
  have hcode : code = some (code.getD "") := pyTruthy_eq_some code hpytrue
  refine ⟨code.getD "", auth_data, payload, hcode, ?_, hlook, hcreate, hresp.symm, hst.symm⟩
  rw [← hcode]
  exact hpytrue

/-! ## Claim theorems -/

/-- C2: `verify_pkce` under `S256` returns true exactly when the challenge
equals the padding-stripped base64url encoding of the SHA-256 digest of
the verifier (so every verifier paired with its derived challenge
passes), and under `plain` exactly when verifier equals challenge. -/
theorem verify_pkce_spec (v c : String) :
    (verify_pkce v c "S256" = true ↔
      c = rstripEq (urlsafe_b64encode (sha256 (asciiBytes v))))
    ∧ verify_pkce v (rstripEq (urlsafe_b64encode (sha256 (asciiBytes v)))) "S256" = true
    ∧ (verify_pkce v c "plain" = true ↔ v = c) := by
  refine ⟨?_, ?_, ?_⟩
  · rw [verify_pkce, if_pos rfl, s256Challenge]
    exact ⟨fun h => (eq_of_beq h).symm, fun h => beq_iff_eq.mpr h.symm⟩
  · rw [verify_pkce, if_pos rfl, s256Challenge]
    exact beq_self_eq_true _
  · rw [verify_pkce, if_neg (by decide), if_pos rfl]
    exact ⟨fun h => eq_of_beq h, fun h => beq_iff_eq.mpr h⟩

/-- C3: with no API key configured and no credentials at all, the
dual-mode authenticator succeeds with an `api_key`-type context; with an
API key configured, the identical credential-less request fails 401. -/
theorem dual_mode_open_by_default (decode : String → Option JwtPayload)
    (jwt_secret mcp_api_key_env : String) (now : Int) :
    (pyStrip mcp_api_key_env = "" →
      verify_oauth_or_api_key decode jwt_secret mcp_api_key_env now none none =
        .ok apiKeyContext ∧ apiKeyContext.type = "api_key")
    ∧ (pyStrip mcp_api_key_env ≠ "" →
      verify_oauth_or_api_key decode jwt_secret mcp_api_key_env now none none =
        .error ⟨401,
          "Authentication required: provide either valid Bearer token or X-API-Key header"⟩) := by
  constructor
  · intro hq
    refine ⟨?_, rfl⟩
    simp [verify_oauth_or_api_key, verify_api_key, hq]
  · intro hq
    simp [verify_oauth_or_api_key, verify_api_key, hq, pyTruthy]

/-- C3 witness: concrete runs with an unconfigured and a configured key. -/
theorem dual_mode_open_by_default_witness :
    (verify_oauth_or_api_key (fun _ => none) "" "" 0 none none = .ok apiKeyContext
      ∧ apiKeyContext.type = "api_key")
    ∧ verify_oauth_or_api_key (fun _ => none) "" "k" 0 none none =
        .error ⟨401,
          "Authentication required: provide either valid Bearer token or X-API-Key header"⟩ :=
  ⟨(dual_mode_open_by_default (fun _ => none) "" "" 0).1 (by decide),
   (dual_mode_open_by_default (fun _ => none) "" "k" 0).2 (by decide)⟩

/-- C5: every successfully minted access token has `iat` equal to issuance
time and `exp` exactly 24 hours (86400 seconds) later. -/
theorem access_token_24h (cfg : Config) (client_id scope : String) (now : Int)
    (p : JwtPayload) (h : create_access_token cfg client_id scope now = .ok p) :
    p.iat = some now ∧ p.exp = some (now + 86400) := by
  obtain ⟨-, hp⟩ := create_access_token_ok cfg client_id scope now p h
  subst hp
  exact ⟨rfl, rfl⟩

/-- C5 witness: a concrete mint at time 5. -/
theorem access_token_24h_witness :
    ∃ p, create_access_token cfg1 "cl1" "intervals:read" 5 = .ok p ∧
      p.iat = some 5 ∧ p.exp = some (5 + 86400) :=
  ⟨_, rfl, access_token_24h cfg1 "cl1" "intervals:read" 5 _ rfl⟩

/-- C6: for a well-formed bearer header whose token decodes to an
unexpired payload, verification fails with 403 `Insufficient permissions`
exactly when the whitespace-split scope claim misses `intervals:read`. -/
theorem scope_check_403_iff (decode : String → Option JwtPayload)
    (secret : String) (now : Int) (a : String) (p : JwtPayload)
    (hsec : secret ≠ "") (hb : pyStartsWith a "Bearer " = true)
    (hdec : decode (pyDrop a 7) = some p)
    (hexp : p.exp.any (fun e => decide (now > e)) = false) :
    (verify_jwt_token_sync decode secret now a =
        .error ⟨403, "Insufficient permissions"⟩
      ↔ "intervals:read" ∉ pySplitWs (p.scope.getD ""))
    ∧ (verify_jwt_token decode secret now (some a) =
        .error ⟨403, "Insufficient permissions"⟩
      ↔ "intervals:read" ∉ pySplitWs (p.scope.getD "")) := by
  have ha : pyTruthy (some a) = true := by
    cases hne : a == "" with
    | true =>
      rw [eq_of_beq hne] at hb
      exact absurd hb (by decide)
    | false =>
      simp [pyTruthy, ne_of_beq_false hne]
  constructor
  · unfold verify_jwt_token_sync
    rw [hb]
    simp only [not_true, if_false, if_neg hsec, hdec, hexp, Bool.false_eq_true, if_false]
    by_cases hm : "intervals:read" ∈ pySplitWs (p.scope.getD "")
    · simp [hm]
    · simp [hm]
  · unfold verify_jwt_token
    rw [ha]
    simp only [Option.getD_some, Bool.true_eq_false, if_false, hb, not_true, if_neg hsec,
      hdec, hexp, Bool.false_eq_true]
    by_cases hm : "intervals:read" ∈ pySplitWs (p.scope.getD "")
    · simp [hm]
    · simp [hm]

/-- C6 witness: a token whose only scope is `intervals:admin` is rejected
with 403. -/
theorem scope_check_403_iff_witness :
    verify_jwt_token_sync decAdmin "s" 0 "Bearer tok" =
      .error ⟨403, "Insufficient permissions"⟩ :=
  ((scope_check_403_iff decAdmin "s" 0 "Bearer tok" adminPayload
    (by decide) (by decide) (by decide) (by decide)).1).mpr (by decide)

/-- C8: registration rejects any request containing a redirect URI that is
neither `https://` nor `http://localhost` with a 400 error; the state is
returned only on success, so no client record is ever stored on this
path. -/
theorem invalid_redirect_uri_rejected (st : OAuthState) (now : Int)
    (fid fsec : String) (req : RegRequest)
    (h : ∃ u ∈ req.redirect_uris, validRedirectUri u = false) :
    register_oauth_client st now fid fsec req =
      .error ⟨400,
        "Client registration failed: 400: Invalid redirect URI: must be HTTPS or localhost"⟩ := by
  obtain ⟨u, hu, hv⟩ := h
  have hsome : (req.redirect_uris.find? (fun uri => !validRedirectUri uri)).isSome := by
    rw [List.find?_isSome]
    exact ⟨u, hu, by simp [hv]⟩
  obtain ⟨u', hu'⟩ := Option.isSome_iff_exists.mp hsome
  simp only [register_oauth_client, hu']
  decide

/-- C8 witness: the concrete URI `http://evil.com/cb` is rejected. -/
theorem invalid_redirect_uri_rejected_witness :
    register_oauth_client st1 0 "x" "y"
      { token_endpoint_auth_method := some "none", has_client_secret := false,
        client_name := none, redirect_uris := ["http://evil.com/cb"],
        grant_types := none, response_types := none, scope := none } =
      .error ⟨400,
        "Client registration failed: 400: Invalid redirect URI: must be HTTPS or localhost"⟩ :=
  invalid_redirect_uri_rejected st1 0 "x" "y" _
    ⟨"http://evil.com/cb", by decide, by decide⟩

/-- C7 counterexample: a successful authorization request that supplied no
`state` parameter is redirected with the query `state=None` (Python's
`str(None)` slipped through `urlencode`), not with the state parameter
passed through or omitted. -/
theorem state_none_injected :
    (handle_authorization_request st1 0 "CODE1"
      { client_id := some "cl1", redirect_uri := some "https://ex.com/cb",
        response_type := some "code", scope := "", state := none,
        code_challenge := none, code_challenge_method := "S256" }).map (fun r => r.1.url)
      = .ok "https://ex.com/cb?code=CODE1&state=None"
    ∧ ("https://ex.com/cb?code=CODE1&state=None" : String) ≠
        "https://ex.com/cb?code=CODE1" := by
  constructor
  · decide
  · decide

/-- C7 amended: every successful authorization request yields a 302
redirect to the validated `redirect_uri` whose query carries `code` (the
fresh code) and `state`, where the state value is the URL-encoding of the
request's state when present and the literal string `None` when absent. -/
theorem redirect_carries_code_and_state (st : OAuthState) (now : Int)
    (fresh : String) (params : AuthRequestParams) (r : RedirectResp) (st' : OAuthState)
    (h : handle_authorization_request st now fresh params = .ok (r, st')) :
    r.status_code = 302 ∧ ∃ ruri, params.redirect_uri = some ruri ∧
      r.url = ruri ++ "?" ++
        urlencode [("code", fresh), ("state", pyStrOfOptStr params.state)] := by
  unfold handle_authorization_request at h
  split at h
  · exact absurd h (by simp)
  rename_i cid hcid
  split at h
  · exact absurd h (by simp)
  rename_i client hclient
  split at h
  · exact absurd h (by simp)
  rename_i ruri hruri
  split at h
  · exact absurd h (by simp)
  rename_i hmem
  split at h
  · exact absurd h (by simp)
  rename_i hrt
  split at h
  · exact absurd h (by simp)
  rename_i hpkce
  rw [Except.ok.injEq, Prod.mk.injEq] at h
  obtain ⟨hr, -⟩ := h
  exact ⟨by rw [← hr], ruri, hruri, by rw [← hr]⟩

/-- C7 amended witness: a concrete success with `state` supplied passes it
through, URL-encoded (here unchanged). -/
theorem redirect_carries_code_and_state_witness :
    ∃ r st',
      handle_authorization_request st1 0 "CODE2"
        { client_id := some "cl1", redirect_uri := some "https://ex.com/cb",
          response_type := some "code", scope := "", state := some "xyz",
          code_challenge := none, code_challenge_method := "S256" } = .ok (r, st')
      ∧ r.status_code = 302 ∧ ∃ ruri,
          (some "https://ex.com/cb" : Option String) = some ruri ∧
          r.url = ruri ++ "?" ++ urlencode [("code", "CODE2"), ("state", pyStrOfOptStr (some "xyz"))] := by
  refine ⟨_, _, rfl, ?_⟩
  exact redirect_carries_code_and_state st1 0 "CODE2"
    { client_id := some "cl1", redirect_uri := some "https://ex.com/cb",
      response_type := some "code", scope := "", state := some "xyz",
      code_challenge := none, code_challenge_method := "S256" } _ _ rfl

/-- C4 counterexample: two authorization-code failures with the same 400
status carry different error details, so the cases are not
indistinguishable to the caller. -/
theorem invalid_grant_details_differ :
    handle_token_request cfg1 st1 0 "r" "authorization_code" none none none none none =
      .error ⟨400, "Missing authorization code"⟩
    ∧ handle_token_request cfg1 st1 0 "r" "authorization_code" (some "nope") none none none none =
      .error ⟨400, "Invalid authorization code"⟩
    ∧ ("Missing authorization code" : String) ≠ "Invalid authorization code" := by
  refine ⟨by decide, by decide, by decide⟩

/-- C4 amended: every failure caused by the authorization code yields HTTP
status 400, but with three distinct details: a missing (or empty) code, an
unknown code, and an expired-or-already-used code each report their own
message; only the expired and replayed cases share one message. -/
theorem code_failures_status_400 (cfg : Config) (st : OAuthState) (now : Int)
    (fr : String) (code ruri cid csec cver : Option String) :
    (pyTruthy code = false →
      handle_token_request cfg st now fr "authorization_code" code ruri cid csec cver =
        .error ⟨400, "Missing authorization code"⟩)
    ∧ (pyTruthy code = true → st.codes.lookup (code.getD "") = none →
      handle_token_request cfg st now fr "authorization_code" code ruri cid csec cver =
        .error ⟨400, "Invalid authorization code"⟩)
    ∧ (∀ ad, pyTruthy code = true → st.codes.lookup (code.getD "") = some ad →
      ad.used = true ∨ now > ad.expires_at →
      handle_token_request cfg st now fr "authorization_code" code ruri cid csec cver =
        .error ⟨400, "Authorization code expired or already used"⟩) := by
  refine ⟨?_, ?_, ?_⟩
  · intro h1
    simp [handle_token_request, h1]
  · intro h1 h2
    simp [handle_token_request, h1, h2]
  · intro ad h1 h2 h3
    simp [handle_token_request, h1, h2, h3]

/-- C4 amended witness: the three code-failure branches at concrete
inputs. -/
theorem code_failures_status_400_witness :
    handle_token_request cfg1 st1 0 "r" "authorization_code" none none none none none =
      .error ⟨400, "Missing authorization code"⟩
    ∧ handle_token_request cfg1 st1 0 "r" "authorization_code" (some "zz") none none none none =
      .error ⟨400, "Invalid authorization code"⟩
    ∧ handle_token_request cfg1 st1 2000 "r" "authorization_code" (some "codeA") none none none none =
      .error ⟨400, "Authorization code expired or already used"⟩ :=
  ⟨(code_failures_status_400 cfg1 st1 0 "r" none none none none none).1 (by decide),
   (code_failures_status_400 cfg1 st1 0 "r" (some "zz") none none none none).2.1
     (by decide) (by decide),
   (code_failures_status_400 cfg1 st1 2000 "r" (some "codeA") none none none none).2.2
     codeRec (by decide) (by decide) (Or.inr (by decide))⟩

/-- C1: once an authorization code has been exchanged successfully, its
stored record carries `used = true`, and any second exchange request
presenting the same code — whatever its other parameters, configuration
or timing — fails with the 400 `InvalidGrant` error. -/
theorem auth_code_single_use (cfg : Config) (st : OAuthState) (now : Int)
    (fr : String) (c : String) (ruri cid csec cver : Option String)
    (resp : TokenResponse) (st' : OAuthState)
    (h : handle_token_request cfg st now fr "authorization_code" (some c) ruri cid csec cver =
      .ok (resp, st')) :
    (st'.codes.lookup c).map AuthCodeData.used = some true
    ∧ ∀ (cfg2 : Config) (now2 : Int) (fr2 : String) (ruri2 cid2 csec2 cver2 : Option String),
        handle_token_request cfg2 st' now2 fr2 "authorization_code" (some c)
          ruri2 cid2 csec2 cver2 =
          .error ⟨400, "Authorization code expired or already used"⟩ := by
  obtain ⟨c', ad, payload, hc, hpy, hlook, hcreate, hresp, hst⟩ :=
    handle_token_request_ok _ _ _ _ _ _ _ _ _ _ _ _ h
  injection hc with hcc
  subst hcc
  have hlk2 : (markUsed c st.codes).lookup c = some { ad with used := true } :=
    lookup_markUsed c st.codes ad hlook
  subst hst
  constructor
  · simp [hlk2]
  · intro cfg2 now2 fr2 ruri2 cid2 csec2 cver2
    simp [handle_token_request, hpy, hlk2]

/-- C1 witness: a concrete exchange followed by a replay of the same code. -/
theorem auth_code_single_use_witness :
    ∃ resp st',
      handle_token_request cfg1 st1 500 "r1" "authorization_code" (some "codeA")
        (some "https://ex.com/cb") (some "cl1") (some "sek") none = .ok (resp, st')
      ∧ (st'.codes.lookup "codeA").map AuthCodeData.used = some true
      ∧ handle_token_request cfg1 st' 500 "r2" "authorization_code" (some "codeA")
          (some "https://ex.com/cb") (some "cl1") (some "sek") none =
          .error ⟨400, "Authorization code expired or already used"⟩ := by
  refine ⟨_, _, rfl, ?_, ?_⟩
  · exact (auth_code_single_use cfg1 st1 500 "r1" "codeA"
      (some "https://ex.com/cb") (some "cl1") (some "sek") none _ _ rfl).1
  · exact (auth_code_single_use cfg1 st1 500 "r1" "codeA"
      (some "https://ex.com/cb") (some "cl1") (some "sek") none _ _ rfl).2
      cfg1 500 "r2" (some "https://ex.com/cb") (some "cl1") (some "sek") none

/-- C9: every successful exchange reports `expires_in = 3600` and stores a
token record expiring one hour after issuance, while the JWT itself has
`iat = now` and `exp = now + 86400` (24 hours). -/
theorem token_response_expiry_split (cfg : Config) (st : OAuthState) (now : Int)
    (fr g : String) (code ruri cid csec cver : Option String)
    (resp : TokenResponse) (st' : OAuthState)
    (h : handle_token_request cfg st now fr g code ruri cid csec cver = .ok (resp, st')) :
    resp.expires_in = 3600
    ∧ (∃ ti, st'.tokens.lookup resp.access_token = some ti ∧ ti.expires_at = now + 3600)
    ∧ resp.access_token.iat = some now ∧ resp.access_token.exp = some (now + 86400) := by
  obtain ⟨c, ad, payload, hc, hpy, hlook, hcreate, hresp, hst⟩ :=
    handle_token_request_ok _ _ _ _ _ _ _ _ _ _ _ _ h
  obtain ⟨hsec, hp⟩ := create_access_token_ok _ _ _ _ _ hcreate
  subst hresp
  subst hst
  subst hp
  refine ⟨rfl, ⟨{ client_id := ad.client_id,
                  scope := if ad.scope = "" then "intervals:read intervals:write" else ad.scope,
                  expires_at := now + 3600, refresh_token := fr }, ?_, rfl⟩, rfl, rfl⟩
  simp [List.lookup]

/-- C9 witness: the concrete split expiry values on a successful exchange
at time 100. -/
theorem token_response_expiry_split_witness :
    ∃ resp st',
      handle_token_request cfg1 st1 100 "r9" "authorization_code" (some "codeA")
        (some "https://ex.com/cb") (some "cl1") (some "sek") none = .ok (resp, st')
      ∧ resp.expires_in = 3600
      ∧ (∃ ti, st'.tokens.lookup resp.access_token = some ti ∧ ti.expires_at = 100 + 3600)
      ∧ resp.access_token.iat = some 100 ∧ resp.access_token.exp = some (100 + 86400) := by
  refine ⟨_, _, rfl, ?_⟩
  exact token_response_expiry_split cfg1 st1 100 "r9" "authorization_code"
    (some "codeA") (some "https://ex.com/cb") (some "cl1") (some "sek") none _ _ rfl

/-- C10: when the scope bound to the consumed code is empty, a successful
exchange mints the default scope `intervals:read intervals:write` in the
JWT payload, in the stored token record, and in the response body. -/
theorem empty_scope_defaults (cfg : Config) (st : OAuthState) (now : Int)
    (fr g : String) (code ruri cid csec cver : Option String)
    (resp : TokenResponse) (st' : OAuthState) (c : String) (ad : AuthCodeData)
    (hc : code = some c) (had : st.codes.lookup c = some ad) (hs : ad.scope = "")
    (h : handle_token_request cfg st now fr g code ruri cid csec cver = .ok (resp, st')) :
    resp.scope = "intervals:read intervals:write"
    ∧ resp.access_token.scope = some "intervals:read intervals:write"
    ∧ ∃ ti, st'.tokens.lookup resp.access_token = some ti ∧
        ti.scope = "intervals:read intervals:write" := by
  obtain ⟨c', ad', payload, hc', hpy, hlook, hcreate, hresp, hst⟩ :=
    handle_token_request_ok _ _ _ _ _ _ _ _ _ _ _ _ h
  rw [hc] at hc'
  injection hc' with hcc
  subst hcc
  rw [had] at hlook
  injection hlook with hadd
  subst hadd
  obtain ⟨hsec, hp⟩ := create_access_token_ok _ _ _ _ _ hcreate
  subst hresp
  subst hst
  subst hp
  refine ⟨by simp [hs], by simp [hs],
    ⟨{ client_id := ad.client_id,
       scope := if ad.scope = "" then "intervals:read intervals:write" else ad.scope,
       expires_at := now + 3600, refresh_token := fr }, ?_, by simp [hs]⟩⟩
  simp [List.lookup]

/-- C10 witness: the code record `codeRec` carries the empty scope, and a
successful exchange of it yields the default scope everywhere. -/
theorem empty_scope_defaults_witness :
    ∃ resp st',
      handle_token_request cfg1 st1 200 "r10" "authorization_code" (some "codeA")
        (some "https://ex.com/cb") (some "cl1") (some "sek") none = .ok (resp, st')
      ∧ resp.scope = "intervals:read intervals:write"
      ∧ resp.access_token.scope = some "intervals:read intervals:write"
      ∧ ∃ ti, st'.tokens.lookup resp.access_token = some ti ∧
          ti.scope = "intervals:read intervals:write" := by
  refine ⟨_, _, rfl, ?_⟩
  exact empty_scope_defaults cfg1 st1 200 "r10" "authorization_code" (some "codeA")
    (some "https://ex.com/cb") (some "cl1") (some "sek") none _ _ "codeA" codeRec
    rfl (by decide) rfl rfl
